import Mathlib

/-!
Verification of the malwi-box permission engine (`src/malwi_box/engine.py`,
`src/malwi_box/formatting.py`).

The Python classes are shallowly embedded: the engine's configuration is a
`Config` record, resolved filesystem paths are component lists
(`List String`), the filesystem and the SHA-256 digest function are packaged
in a `World` record (the digest function is kept abstract, since no claim
depends on concrete SHA-256 values, only on digest (in)equality), and each
method of `BoxEngine` becomes a Lean function of the same name.

Modelling notes, stated once here:
* `Path.resolve()` is modelled as lexical normalisation (splitting on `/`,
  dropping empty and `.` components, collapsing `..`); the model filesystem
  has no symbolic links.
* Python values appearing in audit-event argument tuples are modelled by the
  inductive type `PyVal`; truthiness and `str()` are modelled for the
  constructors the engine actually inspects.
* `bytes.decode("utf-8", errors="replace")` is modelled faithfully for
  ASCII bytes; a non-ASCII byte becomes the replacement character.
* `fnmatch.fnmatch` is modelled for the wildcards `*` and `?` (with
  `os.path.normcase` the identity, as on POSIX); bracket character classes
  are not used by any policy pattern in this repository and are treated as
  literal characters.
* A domain entry whose port segment is non-numeric makes `urlparse(...).port`
  raise in the source; such entries are outside the model and parse to a
  port-less entry here.
-/

namespace MalwiBox

/-- A Python value appearing in an audit-event argument tuple. -/
inductive PyVal where
  | vstr (s : String)
  | vbytes (b : List Nat)
  | vpath (s : String)
  | vint (n : Int)
  | vnone
  | vlist (l : List PyVal)
deriving Repr

/-- The apostrophe character, used when rendering Python `repr` of strings. -/
def quoteChar : Char := Char.ofNat 39

mutual

/-- Model of `str(v)` for the values the engine converts to strings (list
rendering approximates `repr` of the elements; no claim evaluates `str()`
on a list value). -/
def pyStr : PyVal → String
  | .vstr s => s
  | .vpath s => s
  | .vint n => toString n
  | .vnone => "None"
  | .vbytes b => "b" ++ String.singleton quoteChar
      ++ String.mk (b.map fun n => if n < 128 then Char.ofNat n else Char.ofNat 0xFFFD)
      ++ String.singleton quoteChar
  | .vlist l => "[" ++ String.intercalate ", " (pyStrList l) ++ "]"

/-- `str` applied to each element of a list value. -/
def pyStrList : List PyVal → List String
  | [] => []
  | a :: l => pyStr a :: pyStrList l

end

/-- Is this value the Python `None`? -/
def PyVal.isNoneV : PyVal → Bool
  | .vnone => true
  | _ => false

/-- Model of Python truthiness for the values the engine tests. -/
def pyTruthy : PyVal → Bool
  | .vstr s => s ≠ ""
  | .vpath _ => true
  | .vint n => n ≠ 0
  | .vnone => false
  | .vbytes b => !b.isEmpty
  | .vlist l => !l.isEmpty

/-- Model of `bytes.decode("utf-8", errors="replace")` (ASCII-faithful). -/
def decodeBytes (b : List Nat) : String :=
  String.mk (b.map fun n => if n < 128 then Char.ofNat n else Char.ofNat 0xFFFD)

/-- Split a character list at every occurrence of `sep` (the semantics of
`str.split(sep)` / `String.splitOn` for a one-character separator). -/
def splitChars (sep : Char) : List Char → List (List Char)
  | [] => [[]]
  | c :: rest =>
    let r := splitChars sep rest
    if c = sep then [] :: r
    else
      match r with
      | h :: t => (c :: h) :: t
      | [] => [[c]]

/-- `s.split(sep)` on strings. -/
def splitStr (sep : Char) (s : String) : List String :=
  (splitChars sep s.toList).map List.asString

/-- `s.startswith(p)`. -/
def strHasPrefix (s p : String) : Bool :=
  p.toList.isPrefixOf s.toList

/-- `s.endswith(p)`. -/
def strHasSuffix (s p : String) : Bool :=
  p.toList.isSuffixOf s.toList

/-- `c in s` for a character `c`. -/
def strContainsChar (s : String) (c : Char) : Bool :=
  s.toList.contains c

/-- ASCII lower-casing of one character. -/
def charLower (c : Char) : Char :=
  if c.isUpper then Char.ofNat (c.toNat + 32) else c

/-- `s.lower()` (ASCII-faithful, as `urlparse.hostname` applies to the
ASCII hostnames appearing in domain entries). -/
def strLower (s : String) : String :=
  (s.toList.map charLower).asString

/-- The numeric value of a digit string (the `int(...)` applied by
`urlparse` to an all-digit port segment). -/
def digitsToNat (l : List Char) : Nat :=
  l.foldl (fun a c => a * 10 + (c.toNat - 48)) 0

/-- A config entry: a bare path string, or an object pairing a path with a
pinned hash (`_normalize_entry` in the source). A JSON object without a
`"hash"` key behaves like `plain`. -/
inductive Entry where
  | plain (path : String)
  | hashed (path : String) (hash : String)
deriving Repr, DecidableEq

/-- `BoxEngine._normalize_entry`: an entry as a `(path, hash)` pair. -/
def normalizeEntry : Entry → String × Option String
  | .plain p => (p, none)
  | .hashed p h => (p, some h)

/-- The permission configuration loaded by `BoxEngine._load_config`. -/
structure Config where
  allow_file_reads : List Entry
  allow_file_writes : List Entry
  allow_file_changes : List Entry
  allow_dir_reads : List String
  allow_dir_writes : List String
  allow_dir_changes : List String
  allow_env_var_reads : List String
  allow_env_var_writes : List String
  allow_pypi_requests : Bool
  allow_domains : List String
  allow_system_commands : List String
deriving Repr, DecidableEq

/-- `BoxEngine._default_config`, parametric in the rendered workdir string
and the standard-library paths discovered via `sysconfig`. -/
def defaultConfig (workdirStr : String) (stdlibPaths : List String) : Config where
  allow_file_reads := []
  allow_file_writes := []
  allow_file_changes := []
  allow_dir_reads := workdirStr :: stdlibPaths
  allow_dir_writes := [workdirStr]
  allow_dir_changes := [workdirStr]
  allow_env_var_reads := []
  allow_env_var_writes := []
  allow_pypi_requests := true
  allow_domains := []
  allow_system_commands := []

/-- A file in the model filesystem: readable bytes, or present but
unreadable (an `OSError` on `read_bytes`). -/
inductive FileNode where
  | ok (bytes : List Nat)
  | unreadable
deriving Repr, DecidableEq

/-- The ambient world: the filesystem keyed by resolved paths, and the
SHA-256 hex-digest function, kept abstract. -/
structure World where
  fs : List String → Option FileNode
  sha256hex : List Nat → String

/-- `Path.exists()` on a resolved path. -/
def pathExists (w : World) (p : List String) : Bool :=
  (w.fs p).isSome

/-- `Path.read_bytes()` on a resolved path; `none` models a missing file or
an `OSError`. -/
def readBytes (w : World) (p : List String) : Option (List Nat) :=
  match w.fs p with
  | some (.ok b) => some b
  | _ => none

/-- One step of lexical `..` normalisation. -/
def normStep (acc : List String) (c : String) : List String :=
  if c = ".." then acc.dropLast else acc ++ [c]

/-- `BoxEngine._resolve_path`: absolute paths are split into components;
relative ones are prefixed with the workdir; `resolve()` is lexical
normalisation (the model filesystem has no symlinks). -/
def resolvePath (workdir : List String) (s : String) : List String :=
  let comps := (splitStr '/' s).filter fun c => c ≠ "" ∧ c ≠ "."
  if s.toList.head? = some '/' then comps.foldl normStep []
  else comps.foldl normStep workdir

/-- Render a resolved path back to the string `str(Path)` produces. -/
def rpathToString (p : List String) : String :=
  "/" ++ String.intercalate "/" p

/-- `BoxEngine._verify_file_hash`. -/
def verifyFileHash (w : World) (p : List String) (expectedHash : String) : Bool :=
  if !strHasPrefix expectedHash "sha256:" then false
  else if !pathExists w p then false
  else
    match readBytes w p with
    | none => false
    | some b => w.sha256hex b = (expectedHash.toList.drop 7).asString

/-- `BoxEngine._check_path_in_list`: first entry whose resolved path equals
the request decides; an entry with a (truthy) hash is decided by hash
verification when `checkHash` is set, ending the scan either way. -/
def checkPathInList (workdir : List String) (w : World) (path : List String)
    (entries : List Entry) (checkHash : Bool) : Bool :=
  match entries with
  | [] => false
  | e :: rest =>
    let ne := normalizeEntry e
    if path = resolvePath workdir ne.1 then
      match ne.2 with
      | some h => if checkHash ∧ h ≠ "" then verifyFileHash w path h else true
      | none => true
    else checkPathInList workdir w path rest checkHash

/-- `BoxEngine._check_path_in_dir_list`: `path.relative_to(dir)` succeeds
exactly when the resolved directory is a prefix of the resolved path. -/
def checkPathInDirList (workdir : List String) (path : List String)
    (dirs : List String) : Bool :=
  dirs.any fun d => (resolvePath workdir d).isPrefixOf path

/-- `BoxEngine._check_read_permission`. -/
def checkReadPermission (workdir : List String) (w : World) (cfg : Config)
    (path : List String) : Bool :=
  checkPathInList workdir w path cfg.allow_file_reads false
    || checkPathInDirList workdir path cfg.allow_dir_reads

/-- `BoxEngine._check_write_permission`. -/
def checkWritePermission (workdir : List String) (w : World) (cfg : Config)
    (path : List String) (isNewFile : Bool) : Bool :=
  if isNewFile then
    checkPathInList workdir w path cfg.allow_file_writes false
      || checkPathInDirList workdir path cfg.allow_dir_writes
  else
    checkPathInList workdir w path cfg.allow_file_changes true
      || checkPathInDirList workdir path cfg.allow_dir_changes

/-- `args[0]` as a path when it is a `str`, `Path` or `bytes`. -/
def pathLike : PyVal → Option String
  | .vstr s => some s
  | .vpath s => some s
  | .vbytes b => some (decodeBytes b)
  | _ => none

/-- `any(c in str(mode) for c in "wax+")`. -/
def isWriteMode (mode : String) : Bool :=
  "wax+".toList.any fun c => strContainsChar mode c

/-- `BoxEngine._check_file_access` ("open" event). -/
def checkFileAccess (workdir : List String) (w : World) (cfg : Config)
    (args : List PyVal) : Bool :=
  match args with
  | [] => true
  | pathArg :: rest =>
    let mode := match rest with
      | m :: _ => m
      | [] => PyVal.vstr "r"
    match pathLike pathArg with
    | none => true
    | some s =>
      let resolved := resolvePath workdir s
      if isWriteMode (pyStr mode) then
        checkWritePermission workdir w cfg resolved (!pathExists w resolved)
      else
        checkReadPermission workdir w cfg resolved

/-- Python `==` between an event value and an allow-list string. -/
def pyEqString (v : PyVal) (a : String) : Bool :=
  match v with
  | .vstr s => s = a
  | _ => false

/-- `BoxEngine._check_env_write`. -/
def checkEnvWrite (cfg : Config) (args : List PyVal) : Bool :=
  match args with
  | [] => true
  | k :: _ => cfg.allow_env_var_writes.any fun a => pyEqString k a

/-- `BoxEngine._check_env_read`: allow exactly when no read allow-list is
configured (the key being read is not available to the hook). -/
def checkEnvRead (cfg : Config) : Bool :=
  cfg.allow_env_var_reads.isEmpty

/-- Shell-wildcard matching over characters: `*` and `?`; other characters
(including brackets, unused by this repository's policies) are literal.
The fuel argument makes the recursion structural; every step consumes at
least one unit of `pattern.length + name.length`, so
`pattern.length + name.length + 1` units always suffice. -/
def globMatchF : Nat → List Char → List Char → Bool
  | 0, _, _ => false
  | _ + 1, [], [] => true
  | _ + 1, [], _ :: _ => false
  | fuel + 1, c :: p, s =>
    if c = '*' then
      globMatchF fuel p s ||
        (match s with
         | [] => false
         | _ :: t => globMatchF fuel (c :: p) t)
    else
      match s with
      | [] => false
      | d :: t => if c = '?' then globMatchF fuel p t else (c == d) && globMatchF fuel p t

/-- `fnmatch.fnmatch(name, pattern)` (POSIX `normcase` is the identity). -/
def fnmatchB (name pattern : String) : Bool :=
  globMatchF (pattern.toList.length + name.toList.length + 1) pattern.toList name.toList

/-- The command string for `subprocess.Popen`: `" ".join([exe] + args)`. -/
def joinCmd (exe : String) (cmdArgs : List PyVal) : String :=
  String.intercalate " " (exe :: cmdArgs.map pyStr)

/-- The loop over `allow_system_commands` with `fnmatch`. -/
def matchCommands (cfg : Config) (command : String) : Bool :=
  cfg.allow_system_commands.any fun pattern => fnmatchB command pattern

/-- `args[1]` of `subprocess.Popen` as the iterable of argv items; a truthy
non-iterable second argument raises in the source and is outside the model. -/
def argvOf (rest : List PyVal) : List PyVal :=
  match rest with
  | .vlist l :: _ => l
  | .vstr s :: _ => s.toList.map fun c => PyVal.vstr (String.singleton c)
  | _ => []

/-- `BoxEngine._check_system_command`. -/
def checkSystemCommand (event : String) (cfg : Config) (args : List PyVal) : Bool :=
  match args with
  | [] => true
  | a0 :: rest =>
    if event = "subprocess.Popen" then
      let cmdArgs := argvOf rest
      if pyTruthy a0 && !cmdArgs.isEmpty then
        matchCommands cfg (joinCmd (pyStr a0) cmdArgs)
      else if pyTruthy a0 then
        matchCommands cfg (pyStr a0)
      else true
    else if event = "os.system" then
      matchCommands cfg (pyStr a0)
    else true

/-- The `PYPI_HOSTS` constant. -/
def PYPI_HOSTS : List String :=
  ["pypi.org", "www.pypi.org", "files.pythonhosted.org",
   "upload.pypi.org", "test.pypi.org"]

/-- `urlparse("//" ++ d).hostname or entry` for the host part `d`. -/
def hostnameOf (d entry : String) : String :=
  if d = "" then entry else strLower d

/-- `BoxEngine._parse_domain_entry`: `"example.com" ↦ (example.com, none)`,
`"example.com:443" ↦ (example.com, some 443)`. An empty port segment parses
as no port; a non-numeric one raises in the source (outside the model). -/
def parseDomainEntry (entry : String) : String × Option Nat :=
  match splitStr ':' entry with
  | [d] => (hostnameOf d entry, none)
  | [d, p] =>
    if p ≠ "" ∧ p.toList.all Char.isDigit then (hostnameOf d entry, some (digitsToNat p.toList))
    else (hostnameOf d entry, none)
  | _ => (entry, none)

/-- Python `port == allowed_port` where `allowed_port` is an `int`. -/
def pyEqNat (v : PyVal) (n : Nat) : Bool :=
  match v with
  | .vint m => m = (n : Int)
  | _ => false

/-- `BoxEngine._check_domain`. -/
def checkDomain (cfg : Config) (args : List PyVal) (event : String) : Bool :=
  match args with
  | [] => true
  | h :: rest =>
    let port : PyVal :=
      if event = "socket.getaddrinfo" then
        match rest with
        | p :: _ => p
        | [] => PyVal.vnone
      else PyVal.vnone
    match h with
    | .vstr hs =>
      if hs = "" then true
      else
        (cfg.allow_pypi_requests && PYPI_HOSTS.contains hs)
        || cfg.allow_domains.any fun entry =>
            let pd := parseDomainEntry entry
            (hs = pd.1 || strHasSuffix hs ("." ++ pd.1))
              && (match pd.2 with
                  | some ap => port.isNoneV || pyEqNat port ap
                  | none => true)
    | _ => true

/-- `BoxEngine.check_permission`: the fixed dispatch table; any other event
name is allowed. -/
def checkPermission (workdir : List String) (w : World) (cfg : Config)
    (event : String) (args : List PyVal) : Bool :=
  if event = "open" then checkFileAccess workdir w cfg args
  else if event = "os.putenv" ∨ event = "os.unsetenv" then checkEnvWrite cfg args
  else if event = "os.getenv" ∨ event = "os.environ.get" then checkEnvRead cfg
  else if event = "subprocess.Popen" ∨ event = "os.system" then
    checkSystemCommand event cfg args
  else if event = "socket.getaddrinfo" ∨ event = "socket.gethostbyname" then
    checkDomain cfg args event
  else true

/-- The `details` dict attached to a recorded decision
(`extract_decision_details` in `formatting.py`). -/
structure Details where
  path : Option String := none
  mode : String := "r"
  command : Option String := none
  key : Option String := none
  domain : Option String := none
  port : Option Nat := none
  is_new_file : Bool := false
deriving Repr, DecidableEq

/-- A recorded decision (`BoxEngine.record_decision`); the `repr(args)`
field is irrelevant to persistence and omitted. -/
structure Decision where
  event : String
  allowed : Bool
  details : Details
deriving Repr, DecidableEq

/-- `if x not in l: l.append(x)` — the persistence idiom of
`save_decisions`. -/
def addIfAbsent {α : Type} [DecidableEq α] (l : List α) (e : α) : List α :=
  if e ∈ l then l else l ++ [e]

/-- One iteration of the decision loop in `BoxEngine.save_decisions`. -/
def saveStep (config : Config) (d : Decision) : Config :=
  if !d.allowed then config
  else if d.event = "open" then
    match d.details.path with
    | some p =>
      if p ≠ "" then
        if "wax".toList.any (fun c => strContainsChar d.details.mode c) then
          { config with
            allow_file_writes := addIfAbsent config.allow_file_writes (Entry.plain p) }
        else
          { config with
            allow_file_reads := addIfAbsent config.allow_file_reads (Entry.plain p) }
      else config
    | none => config
  else if d.event = "subprocess.Popen" ∨ d.event = "os.system" then
    match d.details.command with
    | some c =>
      if c ≠ "" then
        { config with allow_system_commands := addIfAbsent config.allow_system_commands c }
      else config
    | none => config
  else if d.event = "os.putenv" ∨ d.event = "os.unsetenv" then
    match d.details.key with
    | some k =>
      if k ≠ "" then
        { config with allow_env_var_writes := addIfAbsent config.allow_env_var_writes k }
      else config
    | none => config
  else if d.event = "socket.getaddrinfo" ∨ d.event = "socket.gethostbyname" then
    match d.details.domain with
    | some dom =>
      if dom ≠ "" then
        let entry := match d.details.port with
          | some pt => if pt ≠ 0 then dom ++ ":" ++ toString pt else dom
          | none => dom
        { config with allow_domains := addIfAbsent config.allow_domains entry }
      else config
    | none => config
  else config

/-- `BoxEngine.save_decisions`: fold the recorded decisions into the config
re-read from disk (or the defaults); the JSON write-back round-trips the
`Config` value unchanged. -/
def saveDecisions (decisions : List Decision) (onDisk : Config) : Config :=
  decisions.foldl saveStep onDisk

/-- `extract_decision_details` (`formatting.py`) for the "open" event; the
source resolves `Path(args[0]).exists()` against the process working
directory, which equals the engine workdir in this model. -/
def extractOpenDetails (w : World) (workdir : List String)
    (args : List PyVal) : Details :=
  match args with
  | [] => { }
  | a0 :: rest =>
    { path := some (pyStr a0)
      mode := match rest with
        | m :: _ => if m.isNoneV then "r" else pyStr m
        | [] => "r"
      is_new_file := !pathExists w (resolvePath workdir (pyStr a0)) }

/-- The decision the review hook records for an approved write of an
existing file (`record_decision` with `extract_decision_details`). -/
def openWriteDecision (p : String) : Decision :=
  ⟨"open", true, { path := some p, mode := "w" }⟩

/-- The decision recorded for an approved read. -/
def openReadDecision (p : String) : Decision :=
  ⟨"open", true, { path := some p, mode := "r" }⟩

/-- The decision recorded for an approved shell command. -/
def commandDecision (c : String) : Decision :=
  ⟨"os.system", true, { command := some c }⟩

/-- The decision recorded for an approved environment-variable write. -/
def envWriteDecision (k : String) : Decision :=
  ⟨"os.putenv", true, { key := some k }⟩

/-- The decision recorded for an approved DNS resolution. -/
def domainDecision (dom : String) (port : Option Nat) : Decision :=
  ⟨"socket.getaddrinfo", true, { domain := some dom, port := port }⟩

/-- A sample world: one readable file `/outside/f.txt`, outside the sample
workdir `/w`; the abstract digest of every byte string is `"bbbb"`. -/
def sampleWorld : World :=
  ⟨fun p => if p = ["outside", "f.txt"] then some (.ok [1]) else none, fun _ => "bbbb"⟩

/-- A sample world with one readable file `/w/f.txt` inside the sample
workdir `/w`. -/
def sampleWorldW : World :=
  ⟨fun p => if p = ["w", "f.txt"] then some (.ok [1]) else none, fun _ => "bbbb"⟩

/-! ## Theorems -/

/-- An element occurring at most once and at least once occurs exactly once. -/
lemma count_eq_one_of_mem {α : Type} [DecidableEq α] {l : List α} {e : α}
    (hm : e ∈ l) (h : l.count e ≤ 1) : l.count e = 1 := by
  have h1 : 0 < l.count e := List.count_pos_iff.mpr hm
  omega

/-- The `append-if-absent` idiom of `save_decisions` never pushes an
element past one occurrence. -/
lemma addIfAbsent_count {α : Type} [DecidableEq α] (l : List α) (e : α)
    (h : l.count e ≤ 1) : ((addIfAbsent (addIfAbsent l e) e).count e) = 1 := by
  unfold addIfAbsent
  by_cases hm : e ∈ l
  · simp only [hm, if_true]
    exact count_eq_one_of_mem hm h
  · have hc : l.count e = 0 := List.count_eq_zero.mpr hm
    simp only [hm, if_false]
    have hmem : e ∈ l ++ [e] := by simp
    simp [hmem, List.count_append, hc]

/-- C7: hash verification is total and conservative: a scheme other than
`sha256:` verifies false, a missing target verifies false, and a target
whose bytes cannot be read verifies false — `_verify_file_hash` returns a
boolean in every case (totality of the Lean function models "never
raises"). -/
theorem C7_hash_verification_fails_closed (w : World) (p : List String) (eh : String) :
    (strHasPrefix eh "sha256:" = false → verifyFileHash w p eh = false)
    ∧ (pathExists w p = false → verifyFileHash w p eh = false)
    ∧ (readBytes w p = none → verifyFileHash w p eh = false) := by
  refine ⟨fun hpre => ?_, fun hex => ?_, fun hrb => ?_⟩
  · simp [verifyFileHash, hpre]
  · simp [verifyFileHash, hex]
  · simp [verifyFileHash, hrb]

/-- C7 witness: a non-`sha256:` scheme and a missing file both verify
false in the sample world. -/
theorem C7_witness :
    verifyFileHash sampleWorld ["outside", "f.txt"] "md5:00" = false
    ∧ verifyFileHash sampleWorld ["gone"] "sha256:bbbb" = false :=
  ⟨(C7_hash_verification_fails_closed sampleWorld ["outside", "f.txt"] "md5:00").1 (by decide),
   (C7_hash_verification_fails_closed sampleWorld ["gone"] "sha256:bbbb").2.1 (by decide)⟩

/-- C1 counterexample: against the claim, a pinned-hash mismatch does not
deny the write when an ancestor directory is listed in
`allow_dir_changes`. Here `/w/f.txt` exists with digest `"bbbb"`, its
`allow_file_changes` entry pins `sha256:aaaa`, and the default config's
`allow_dir_changes` contains the workdir `/w` — yet the write is allowed. -/
theorem C1_counterexample :
    checkPermission ["w"] sampleWorldW
      { defaultConfig "/w" [] with
        allow_file_changes := [Entry.hashed "/w/f.txt" "sha256:aaaa"] }
      "open" [PyVal.vstr "/w/f.txt", PyVal.vstr "w"] = true := by decide

/-- C1 (amended): when the single `allow_file_changes` entry matching the
resolved path carries a pinned hash and the file's current digest differs
from it, the file-specific modification check fails and the overall result
of `check_permission("open", (path, mode))` equals the
ancestor-directory check against `allow_dir_changes`; in particular the
write is denied exactly when no `allow_dir_changes` entry covers the
path. -/
theorem C1_hash_mismatch_defers_to_dir_rules
    (wd : List String) (w : World) (cfg : Config)
    (ep h p m : String) (b : List Nat)
    (hcfg : cfg.allow_file_changes = [Entry.hashed ep h])
    (hep : resolvePath wd ep = resolvePath wd p)
    (hne : h ≠ "")
    (hb : readBytes w (resolvePath wd p) = some b)
    (hdig : w.sha256hex b ≠ (h.toList.drop 7).asString)
    (hw : isWriteMode m = true)
    (hex : pathExists w (resolvePath wd p) = true) :
    checkPermission wd w cfg "open" [PyVal.vstr p, PyVal.vstr m]
      = checkPathInDirList wd (resolvePath wd p) cfg.allow_dir_changes := by
  have hverify : verifyFileHash w (resolvePath wd p) h = false := by
    simp [verifyFileHash, hex, hb]
    intro _
    exact hdig
  simp [checkPermission, checkFileAccess, pathLike, pyStr, hw, hex,
    checkWritePermission, checkPathInList, hcfg, normalizeEntry, hep, hne, hverify]

/-- C1 witness: with the directory rules emptied, the mismatching pin
denies the write. -/
theorem C1_witness :
    checkPermission ["w"] sampleWorldW
      { defaultConfig "/w" [] with
        allow_file_changes := [Entry.hashed "/w/f.txt" "sha256:aaaa"],
        allow_dir_changes := [] }
      "open" [PyVal.vstr "/w/f.txt", PyVal.vstr "w"]
      = checkPathInDirList ["w"] (resolvePath ["w"] "/w/f.txt") [] :=
  C1_hash_mismatch_defers_to_dir_rules ["w"] sampleWorldW _
    "/w/f.txt" "sha256:aaaa" "/w/f.txt" "w" [1]
    (by decide) (by decide) (by decide) (by decide) (by decide) (by decide) (by decide)

/-- C2: the round-trip fails on the code. The review hook approves a write
(mode `"w"`) to the existing file `/outside/f.txt` (workdir `/w`);
`save_decisions` persists it into `allow_file_writes` (it ignores the
recorded `is_new_file` detail), but a fresh engine evaluates the identical
request through the modification rule set
(`allow_file_changes`/`allow_dir_changes`) because the target exists, and
denies it. -/
theorem C2_roundtrip_failure :
    (saveDecisions
        [⟨"open", true,
          extractOpenDetails sampleWorld ["w"]
            [PyVal.vstr "/outside/f.txt", PyVal.vstr "w"]⟩]
        (defaultConfig "/w" [])).allow_file_writes = [Entry.plain "/outside/f.txt"]
    ∧ checkPermission ["w"] sampleWorld
        (saveDecisions
          [⟨"open", true,
            extractOpenDetails sampleWorld ["w"]
              [PyVal.vstr "/outside/f.txt", PyVal.vstr "w"]⟩]
          (defaultConfig "/w" []))
        "open" [PyVal.vstr "/outside/f.txt", PyVal.vstr "w"] = false := by decide

/-- C6: persistence stores the raw absolute path: approving a read of
`/w/test.txt` (inside the workdir `/w`) saves the literal absolute path
into `allow_file_reads`, and no path-variable placeholder such as
`$PWD/test.txt` is produced anywhere — `save_decisions` performs no
placeholder contraction at all. -/
theorem C6_no_placeholder_contraction :
    (saveDecisions [openReadDecision "/w/test.txt"]
        (defaultConfig "/w" [])).allow_file_reads = [Entry.plain "/w/test.txt"]
    ∧ Entry.plain "$PWD/test.txt" ∉
        (saveDecisions [openReadDecision "/w/test.txt"]
          (defaultConfig "/w" [])).allow_file_reads := by decide

/-- C3 counterexample: against the claim, a modeled event with no matching
rule in its category can return true: `os.getenv` is in the dispatch
table, the default config has an empty `allow_env_var_reads`, yet the
check allows. -/
theorem C3_counterexample :
    checkPermission ["w"] sampleWorld (defaultConfig "/w" [])
      "os.getenv" [PyVal.vstr "HOME"] = true := by decide

/-- C3 (amended): every event name outside the dispatch table is allowed;
for modeled events with well-formed arguments, absence of any matching
rule yields false for file access, environment-variable writes, commands
and DNS — but the environment-variable read events are the exception:
they return true whenever the read allow-list is empty and false whenever
it is non-empty. -/
theorem C3_default_deny_except_env_reads
    (wd : List String) (w : World) (cfg : Config)
    (event : String) (args : List PyVal) :
    (event ∉ (["open", "os.putenv", "os.unsetenv", "os.getenv", "os.environ.get",
        "subprocess.Popen", "os.system", "socket.getaddrinfo",
        "socket.gethostbyname"] : List String) →
      checkPermission wd w cfg event args = true)
    ∧ (∀ p m : String,
        cfg.allow_file_reads = [] → cfg.allow_file_writes = [] →
        cfg.allow_file_changes = [] → cfg.allow_dir_reads = [] →
        cfg.allow_dir_writes = [] → cfg.allow_dir_changes = [] →
        checkPermission wd w cfg "open" [PyVal.vstr p, PyVal.vstr m] = false)
    ∧ (∀ k : PyVal, cfg.allow_env_var_writes = [] →
        checkPermission wd w cfg "os.putenv" [k] = false)
    ∧ (∀ exe : String, ∀ l : List PyVal,
        cfg.allow_system_commands = [] → exe ≠ "" →
        checkPermission wd w cfg "subprocess.Popen" [PyVal.vstr exe, PyVal.vlist l] = false)
    ∧ (∀ s : String, cfg.allow_system_commands = [] →
        checkPermission wd w cfg "os.system" [PyVal.vstr s] = false)
    ∧ (∀ hst : String, ∀ rest : List PyVal,
        cfg.allow_domains = [] → cfg.allow_pypi_requests = false → hst ≠ "" →
        checkPermission wd w cfg "socket.getaddrinfo" (PyVal.vstr hst :: rest) = false)
    ∧ (cfg.allow_env_var_reads = [] →
        checkPermission wd w cfg "os.getenv" args = true)
    ∧ (cfg.allow_env_var_reads ≠ [] →
        checkPermission wd w cfg "os.getenv" args = false) := by
  refine ⟨fun hev => ?_, fun p m h1 h2 h3 h4 h5 h6 => ?_, fun k h => ?_,
    fun exe l h hx => ?_, fun s h => ?_, fun hst rest h1 h2 h3 => ?_,
    fun h => ?_, fun h => ?_⟩
  · simp only [List.mem_cons, List.mem_singleton, not_or] at hev
    obtain ⟨e1, e2, e3, e4, e5, e6, e7, e8, e9⟩ := hev
    simp [checkPermission, e1, e2, e3, e4, e5, e6, e7, e8, e9]
  · cases hmode : isWriteMode m with
    | true =>
      cases hex : pathExists w (resolvePath wd p) with
      | true =>
        simp [checkPermission, checkFileAccess, pathLike, pyStr, hmode, hex,
          checkWritePermission, checkPathInList, checkPathInDirList, h3, h6]
      | false =>
        simp [checkPermission, checkFileAccess, pathLike, pyStr, hmode, hex,
          checkWritePermission, checkPathInList, checkPathInDirList, h2, h5]
    | false =>
      simp [checkPermission, checkFileAccess, pathLike, pyStr, hmode,
        checkReadPermission, checkPathInList, checkPathInDirList, h1, h4]
  · simp [checkPermission, checkEnvWrite, h]
  · simp [checkPermission, checkSystemCommand, argvOf, matchCommands, h,
      pyTruthy, pyStr, hx]
  · simp [checkPermission, checkSystemCommand, matchCommands, h]
  · simp [checkPermission, checkDomain, h1, h2, h3]
  · simp [checkPermission, checkEnvRead, h]
  · simp [checkPermission, checkEnvRead, h]

/-- C3 witness: at the sample inputs, an unmodeled event is allowed and a
modeled one with no rules is denied. -/
theorem C3_witness :
    checkPermission ["w"] sampleWorld (defaultConfig "/w" []) "compile"
      [PyVal.vstr "source"] = true
    ∧ checkPermission ["w"] sampleWorld (defaultConfig "/w" []) "os.putenv"
      [PyVal.vstr "KEY"] = false :=
  ⟨(C3_default_deny_except_env_reads ["w"] sampleWorld (defaultConfig "/w" [])
      "compile" [PyVal.vstr "source"]).1 (by decide),
   (C3_default_deny_except_env_reads ["w"] sampleWorld (defaultConfig "/w" [])
      "os.putenv" []).2.2.1 (PyVal.vstr "KEY") (by decide)⟩

/-- C4: an open request is treated as a write exactly when the mode string
contains one of `w`, `a`, `x`, `+`; a write whose resolved target does not
exist is decided by the creation rule set alone (two configs agreeing on
`allow_file_writes`/`allow_dir_writes` decide it identically, and the
result is the creation-side `_check_write_permission`), and a write whose
target exists is decided by the modification rule set alone, the two
being evaluated independently even for the same path. -/
theorem C4_write_routing
    (wd : List String) (w : World) (cfg cfg2 : Config) (p m : String) :
    (isWriteMode m = true ↔ ∃ c, c ∈ "wax+".toList ∧ strContainsChar m c = true)
    ∧ (isWriteMode m = true → pathExists w (resolvePath wd p) = false →
        cfg.allow_file_writes = cfg2.allow_file_writes →
        cfg.allow_dir_writes = cfg2.allow_dir_writes →
        checkPermission wd w cfg "open" [PyVal.vstr p, PyVal.vstr m]
          = checkPermission wd w cfg2 "open" [PyVal.vstr p, PyVal.vstr m])
    ∧ (isWriteMode m = true → pathExists w (resolvePath wd p) = true →
        cfg.allow_file_changes = cfg2.allow_file_changes →
        cfg.allow_dir_changes = cfg2.allow_dir_changes →
        checkPermission wd w cfg "open" [PyVal.vstr p, PyVal.vstr m]
          = checkPermission wd w cfg2 "open" [PyVal.vstr p, PyVal.vstr m])
    ∧ (isWriteMode m = true → pathExists w (resolvePath wd p) = false →
        checkPermission wd w cfg "open" [PyVal.vstr p, PyVal.vstr m]
          = checkWritePermission wd w cfg (resolvePath wd p) true)
    ∧ (isWriteMode m = true → pathExists w (resolvePath wd p) = true →
        checkPermission wd w cfg "open" [PyVal.vstr p, PyVal.vstr m]
          = checkWritePermission wd w cfg (resolvePath wd p) false)
    ∧ (isWriteMode m = false →
        checkPermission wd w cfg "open" [PyVal.vstr p, PyVal.vstr m]
          = checkReadPermission wd w cfg (resolvePath wd p)) := by
  refine ⟨?_, fun hm hex h1 h2 => ?_, fun hm hex h1 h2 => ?_,
    fun hm hex => ?_, fun hm hex => ?_, fun hm => ?_⟩
  · simp [isWriteMode, List.any_eq_true]
  · simp [checkPermission, checkFileAccess, pathLike, pyStr, hm, hex,
      checkWritePermission, h1, h2]
  · simp [checkPermission, checkFileAccess, pathLike, pyStr, hm, hex,
      checkWritePermission, h1, h2]
  · simp [checkPermission, checkFileAccess, pathLike, pyStr, hm, hex]
  · simp [checkPermission, checkFileAccess, pathLike, pyStr, hm, hex]
  · simp [checkPermission, checkFileAccess, pathLike, pyStr, hm]

/-- C4 witness: creating `/outside/new.txt` (non-existent) is decided the
same under two configs that differ arbitrarily in their modification
lists but share creation lists. -/
theorem C4_witness :
    checkPermission ["w"] sampleWorld (defaultConfig "/w" [])
        "open" [PyVal.vstr "/outside/new.txt", PyVal.vstr "w"]
      = checkPermission ["w"] sampleWorld
          { defaultConfig "/w" [] with
            allow_file_changes := [Entry.plain "/outside/new.txt"],
            allow_dir_changes := ["/outside"] }
          "open" [PyVal.vstr "/outside/new.txt", PyVal.vstr "w"] :=
  (C4_write_routing ["w"] sampleWorld (defaultConfig "/w" [])
      { defaultConfig "/w" [] with
        allow_file_changes := [Entry.plain "/outside/new.txt"],
        allow_dir_changes := ["/outside"] }
      "/outside/new.txt" "w").2.1 (by decide) (by decide) (by decide) (by decide)

/-- C5: with a single domain entry, a host matching the parsed domain
exactly or as a dot-separated subdomain is permitted: on any port when the
entry carries no port; on exactly the entry's port when it carries one,
while the port-less resolution event (`socket.gethostbyname`, or
`getaddrinfo` without a port argument) is always permitted; a host
matching neither way is denied. -/
theorem C5_domain_matching
    (wd : List String) (w : World) (cfg : Config)
    (entry dom hs : String) (popt : Option Nat)
    (hcfg : cfg.allow_domains = [entry])
    (hpypi : cfg.allow_pypi_requests = false)
    (hparse : parseDomainEntry entry = (dom, popt))
    (hmatch : hs = dom ∨ strHasSuffix hs ("." ++ dom) = true)
    (hne : hs ≠ "") :
    (popt = none → ∀ q : Int,
      checkPermission wd w cfg "socket.getaddrinfo" [PyVal.vstr hs, PyVal.vint q] = true)
    ∧ (∀ ap : Nat, popt = some ap → ∀ q : Int,
        (checkPermission wd w cfg "socket.getaddrinfo" [PyVal.vstr hs, PyVal.vint q] = true
          ↔ q = (ap : Int)))
    ∧ checkPermission wd w cfg "socket.gethostbyname" [PyVal.vstr hs] = true
    ∧ (∀ hs2 : String, hs2 ≠ "" →
        ¬ (hs2 = dom ∨ strHasSuffix hs2 ("." ++ dom) = true) →
        ∀ q : Int,
        checkPermission wd w cfg "socket.getaddrinfo" [PyVal.vstr hs2, PyVal.vint q] = false) := by
  refine ⟨fun hnone q => ?_, fun ap hsome q => ?_, ?_, fun hs2 hne2 hnm q => ?_⟩
  · subst hnone
    rcases hmatch with hmatch | hmatch <;>
      simp [checkPermission, checkDomain, hcfg, hpypi, hparse, hne, hmatch]
  · subst hsome
    rcases hmatch with hmatch | hmatch
    · subst hmatch
      simp [checkPermission, checkDomain, hcfg, hpypi, hparse, hne,
        PyVal.isNoneV, pyEqNat]
    · simp [checkPermission, checkDomain, hcfg, hpypi, hparse, hne, hmatch,
        PyVal.isNoneV, pyEqNat]
  · cases popt with
    | none =>
      rcases hmatch with hmatch | hmatch <;>
        simp [checkPermission, checkDomain, hcfg, hpypi, hparse, hne, hmatch]
    | some ap =>
      rcases hmatch with hmatch | hmatch <;>
        simp [checkPermission, checkDomain, hcfg, hpypi, hparse, hne, hmatch,
          PyVal.isNoneV]
  · simp only [not_or] at hnm
    simp [checkPermission, checkDomain, hcfg, hpypi, hparse, hne2, hnm.1, hnm.2]

/-- C5 witness: entry `"example.com:443"` permits `api.example.com:443`,
denies `api.example.com:8080`, and permits the port-less resolution. -/
theorem C5_witness :
    (checkPermission ["w"] sampleWorld
        { defaultConfig "/w" [] with
          allow_pypi_requests := false
          allow_domains := ["example.com:443"] }
        "socket.getaddrinfo" [PyVal.vstr "api.example.com", PyVal.vint 443] = true
      ↔ (443 : Int) = (443 : Nat))
    ∧ checkPermission ["w"] sampleWorld
        { defaultConfig "/w" [] with
          allow_pypi_requests := false
          allow_domains := ["example.com:443"] }
        "socket.gethostbyname" [PyVal.vstr "api.example.com"] = true :=
  ⟨(C5_domain_matching ["w"] sampleWorld _ "example.com:443" "example.com"
      "api.example.com" (some 443) (by decide) (by decide) (by decide)
      (Or.inr (by decide)) (by decide)).2.1 443 rfl 443,
   (C5_domain_matching ["w"] sampleWorld _ "example.com:443" "example.com"
      "api.example.com" (some 443) (by decide) (by decide) (by decide)
      (Or.inr (by decide)) (by decide)).2.2.1⟩

/-- C8: persistence is idempotent. For each decision family, recording the
same approved decision twice — or saving once when the entry is already
present — leaves exactly one occurrence of the entry in its category. -/
theorem C8_idempotent_persistence (cfg : Config) (p c k dom : String) :
    (p ≠ "" → cfg.allow_file_writes.count (Entry.plain p) ≤ 1 →
      (saveDecisions [openWriteDecision p, openWriteDecision p]
        cfg).allow_file_writes.count (Entry.plain p) = 1)
    ∧ (p ≠ "" → Entry.plain p ∈ cfg.allow_file_reads →
        cfg.allow_file_reads.count (Entry.plain p) ≤ 1 →
        (saveDecisions [openReadDecision p] cfg).allow_file_reads.count
          (Entry.plain p) = 1)
    ∧ (c ≠ "" → cfg.allow_system_commands.count c ≤ 1 →
        (saveDecisions [commandDecision c, commandDecision c]
          cfg).allow_system_commands.count c = 1)
    ∧ (k ≠ "" → cfg.allow_env_var_writes.count k ≤ 1 →
        (saveDecisions [envWriteDecision k, envWriteDecision k]
          cfg).allow_env_var_writes.count k = 1)
    ∧ (dom ≠ "" → cfg.allow_domains.count dom ≤ 1 →
        (saveDecisions [domainDecision dom none, domainDecision dom none]
          cfg).allow_domains.count dom = 1) := by
  refine ⟨fun hp hc => ?_, fun hp hm hc => ?_, fun hx hc => ?_,
    fun hx hc => ?_, fun hx hc => ?_⟩
  · simp only [saveDecisions, List.foldl, saveStep, openWriteDecision]
    simp [hp]
    exact addIfAbsent_count _ _ hc
  · have hstable : addIfAbsent cfg.allow_file_reads (Entry.plain p)
        = cfg.allow_file_reads := by simp [addIfAbsent, hm]
    simp only [saveDecisions, List.foldl, saveStep, openReadDecision]
    simp [hp, hstable]
    exact count_eq_one_of_mem hm hc
  · simp only [saveDecisions, List.foldl, saveStep, commandDecision]
    simp [hx]
    exact addIfAbsent_count _ _ hc
  · simp only [saveDecisions, List.foldl, saveStep, envWriteDecision]
    simp [hx]
    exact addIfAbsent_count _ _ hc
  · simp only [saveDecisions, List.foldl, saveStep, domainDecision]
    simp [hx]
    exact addIfAbsent_count _ _ hc

/-- C8 witness: approving the same write twice leaves one entry. -/
theorem C8_witness :
    (saveDecisions [openWriteDecision "/w/a.txt", openWriteDecision "/w/a.txt"]
      (defaultConfig "/w" [])).allow_file_writes.count (Entry.plain "/w/a.txt") = 1 :=
  (C8_idempotent_persistence (defaultConfig "/w" []) "/w/a.txt" "x" "x" "x").1
    (by decide) (by decide)

/-- C9: command checking joins the executable with its argv
(`subprocess.Popen`) or takes the raw string (`os.system`) and allows
exactly when some `allow_system_commands` pattern glob-matches the
command; pattern `"git *"` matches `"git status"` and
`"git push origin"` but neither `"gitstatus"` nor `"rm -rf /"`. -/
theorem C9_command_glob_matching
    (wd : List String) (w : World) (cfg : Config)
    (exe s : String) (l : List PyVal) :
    (exe ≠ "" → l ≠ [] →
      (checkPermission wd w cfg "subprocess.Popen"
          [PyVal.vstr exe, PyVal.vlist l] = true
        ↔ ∃ pat ∈ cfg.allow_system_commands, fnmatchB (joinCmd exe l) pat = true))
    ∧ (checkPermission wd w cfg "os.system" [PyVal.vstr s] = true
        ↔ ∃ pat ∈ cfg.allow_system_commands, fnmatchB s pat = true)
    ∧ fnmatchB "git status" "git *" = true
    ∧ fnmatchB "git push origin" "git *" = true
    ∧ fnmatchB "gitstatus" "git *" = false
    ∧ fnmatchB "rm -rf /" "git *" = false := by
  refine ⟨fun hx hl => ?_, ?_, by decide, by decide, by decide, by decide⟩
  · simp [checkPermission, checkSystemCommand, argvOf, matchCommands, pyTruthy,
      pyStr, hx, hl, joinCmd, List.any_eq_true, List.isEmpty_iff]
  · simp [checkPermission, checkSystemCommand, matchCommands, pyStr,
      List.any_eq_true]

/-- C9 witness: with pattern list `["git *"]`, `Popen("git", ["status"])`
is allowed because the joined command matches the glob. -/
theorem C9_witness :
    checkPermission ["w"] sampleWorld
      { defaultConfig "/w" [] with allow_system_commands := ["git *"] }
      "subprocess.Popen" [PyVal.vstr "git", PyVal.vlist [PyVal.vstr "status"]] = true :=
  ((C9_command_glob_matching ["w"] sampleWorld
      { defaultConfig "/w" [] with allow_system_commands := ["git *"] }
      "git" "x" [PyVal.vstr "status"]).1 (by decide) (List.cons_ne_nil _ _)).mpr
    ⟨"git *", by decide, by decide⟩

/-- C10 counterexample: against the claim, a modeled event called with an
empty args tuple can return false: the env-var read events ignore `args`
and deny whenever a read allow-list is configured. -/
theorem C10_counterexample :
    checkPermission ["w"] sampleWorld
      { defaultConfig "/w" [] with allow_env_var_reads := ["HOME"] }
      "os.getenv" [] = false := by decide

/-- C10 (amended): for the open, env-var write, command and DNS handlers,
an empty args tuple returns true, and a non-path first argument of "open"
(an int, `None`, or a list) returns true; the env-var read events,
however, ignore args entirely: they return true exactly when no read
allow-list is configured, regardless of the args tuple. -/
theorem C10_malformed_args_fail_open
    (wd : List String) (w : World) (cfg : Config) (n : Int) (rest : List PyVal) :
    checkPermission wd w cfg "open" [] = true
    ∧ checkPermission wd w cfg "os.putenv" [] = true
    ∧ checkPermission wd w cfg "os.unsetenv" [] = true
    ∧ checkPermission wd w cfg "subprocess.Popen" [] = true
    ∧ checkPermission wd w cfg "os.system" [] = true
    ∧ checkPermission wd w cfg "socket.getaddrinfo" [] = true
    ∧ checkPermission wd w cfg "socket.gethostbyname" [] = true
    ∧ checkPermission wd w cfg "open" (PyVal.vint n :: rest) = true
    ∧ checkPermission wd w cfg "open" (PyVal.vnone :: rest) = true
    ∧ checkPermission wd w cfg "open" (PyVal.vlist rest :: rest) = true
    ∧ (cfg.allow_env_var_reads = [] →
        checkPermission wd w cfg "os.getenv" rest = true)
    ∧ (cfg.allow_env_var_reads ≠ [] →
        checkPermission wd w cfg "os.getenv" rest = false) := by
  refine ⟨?_, ?_, ?_, ?_, ?_, ?_, ?_, ?_, ?_, ?_, fun h => ?_, fun h => ?_⟩
  · simp [checkPermission, checkFileAccess]
  · simp [checkPermission, checkEnvWrite]
  · simp [checkPermission, checkEnvWrite]
  · simp [checkPermission, checkSystemCommand]
  · simp [checkPermission, checkSystemCommand]
  · simp [checkPermission, checkDomain]
  · simp [checkPermission, checkDomain]
  · cases rest <;> simp [checkPermission, checkFileAccess, pathLike]
  · cases rest <;> simp [checkPermission, checkFileAccess, pathLike]
  · cases rest <;> simp [checkPermission, checkFileAccess, pathLike]
  · simp [checkPermission, checkEnvRead, h]
  · simp [checkPermission, checkEnvRead, h]

/-- C10 witness: opening a file descriptor (int first argument) with the
default config is allowed. -/
theorem C10_witness :
    checkPermission ["w"] sampleWorld (defaultConfig "/w" [])
      "open" [PyVal.vint 7, PyVal.vstr "w"] = true :=
  (C10_malformed_args_fail_open ["w"] sampleWorld (defaultConfig "/w" [])
    7 [PyVal.vstr "w"]).2.2.2.2.2.2.2.1

end MalwiBox
